import Mathlib

/-!
Verification of the mentra-nutrilens worker-offload and session layer.

This file gives a shallow embedding, in Lean, of the parts of the
repository that the specification makes claims about:

- the WorkerManager class (worker-manager source file): worker records,
  pending-task entries, timeout handling, error routing;
- the dispatch facade of NutritionLensApp (glasses index.ts):
  processImageParallel, processAudioParallel and their single-threaded
  fallbacks;
- the camera lock discipline of NutritionLensApp:
  waitForCameraAvailability, takePhotoImmediateAsync,
  capturePhotoWithRetryOptimized, setupStreamingPhotoInterval, onStop;
- the row builder of insertNutritionData (supabase service).

JavaScript Map objects are embedded as key-unique association lists
(or plain key lists when the stored value is abstracted); callbacks
stored in the pending-task map are determined entirely by sendTask,
so invoking a callback is embedded as appending the settlement it
would produce to an explicit settlement log.  Effectful steps whose
outcome depends on the outside world (a worker response arriving, an
upload succeeding, a photo being captured) are parameters of the
embedded functions, so that every control path of the source is a
value of the Lean function.
-/

/-! ## JS Map key-set helpers

A JS Map has unique keys.  When only the key set matters we keep a
duplicate-free list of keys: insertion is a no-op on a present key and
deletion removes the key outright. -/

/-- Key-set insertion mirroring Map.set on a map whose stored value is
irrelevant: the key set gains the key if absent. -/
def keyInsert (l : List String) (k : String) : List String :=
  if l.contains k then l else l ++ [k]

/-- Key-set deletion mirroring Map.delete: the key is removed. -/
def keyErase (l : List String) (k : String) : List String :=
  l.filter (fun x => !(x == k))

/-- Embeds the JS String.prototype.startsWith test used to attribute a
task id to its worker type; phrased over the character lists so that
it evaluates inside the kernel. -/
def strStartsWith (s p : String) : Bool :=
  p.data.isPrefixOf s.data

/-! ## Worker Pool Manager (the WorkerManager class)

State of one WorkerManager instance.  The workers map is kept as its
key set (the Worker handles are opaque), the pendingTasks map as the
key set of task ids whose callback is registered, plus the set of task
ids whose setTimeout timer is scheduled and not yet cleared.  Invoking
a stored callback appends a Settlement of the callers promise to the
settled log. -/

/-- The settlement a pending-task callback produces on the promise
returned by sendTask. -/
inductive Settlement where
  | resolve (result : String)
  | reject (errMsg : String)
deriving DecidableEq, Repr

/-- Embeds the WorkerResponse interface: id, success flag, result and
optional error description. -/
structure WorkerResponse where
  id : String
  success : Bool
  result : String
  error : Option String
deriving DecidableEq, Repr

/-- Embeds the JS expression (response.error or the fallback text):
an absent or empty (falsy) error string is replaced by the default. -/
def jsOrElse (o : Option String) (d : String) : String :=
  match o with
  | some s => if s = "" then d else s
  | none => d

/-- What the callback installed by sendTask does with a response:
resolve with the result on success, otherwise reject with the error
description (or a default text when the description is falsy). -/
def runCallback (resp : WorkerResponse) : Settlement :=
  if resp.success then .resolve resp.result
  else .reject (jsOrElse resp.error "Worker task failed")

/-- State of a WorkerManager: worker-record keys, pending-task ids,
scheduled (uncleared) timeout timers, and the log of settlements the
invoked callbacks produced. -/
structure WMState where
  workers : List String
  pendingTasks : List String
  activeTimers : List String
  settled : List (String × Settlement)
deriving DecidableEq, Repr

/-- Embeds WorkerManager.isWorkerAvailable: membership of the type in
the workers map. -/
def isWorkerAvailable (ty : String) (s : WMState) : Bool :=
  s.workers.contains ty

/-- Embeds the body of the promise set up by WorkerManager.sendTask,
state part: a not-initialized worker type is an immediate error;
otherwise the task id gains a pending callback and a scheduled
timeout timer. -/
def sendTask (workerType : String) (msgId : String) (s : WMState) :
    Except String WMState :=
  if s.workers.contains workerType then
    .ok { s with pendingTasks := keyInsert s.pendingTasks msgId,
                 activeTimers := keyInsert s.activeTimers msgId }
  else
    .error ("Worker " ++ workerType ++ " not initialized")

/-- Embeds the setTimeout callback of sendTask firing for a task id.
A timer only fires while scheduled and not cleared; the callback
deletes the pending entry and rejects with the timeout error. -/
def timeoutFires (timeoutMs : Nat) (id : String) (s : WMState) : WMState :=
  if s.activeTimers.contains id then
    { s with
      pendingTasks := keyErase s.pendingTasks id,
      activeTimers := keyErase s.activeTimers id,
      settled := s.settled ++
        [(id, .reject ("Task " ++ id ++ " timed out after " ++
          toString timeoutMs ++ "ms"))] }
  else s

/-- Embeds WorkerManager.handleWorkerMessage: look up the callback for
the response id; when present, invoke it (which clears the timeout and
settles the promise) and delete the entry; otherwise do nothing. -/
def handleWorkerMessage (resp : WorkerResponse) (s : WMState) : WMState :=
  if s.pendingTasks.contains resp.id then
    { s with
      pendingTasks := keyErase s.pendingTasks resp.id,
      activeTimers := keyErase s.activeTimers resp.id,
      settled := s.settled ++ [(resp.id, runCallback resp)] }
  else s

/-- Embeds WorkerManager.handleWorkerError: every pending task whose
id starts with the worker type gets its callback invoked with a
failure response (clearing its timer and rejecting its promise), and
those entries are then deleted.  The workers map is not touched. -/
def handleWorkerError (workerType : String) (errMsg : String)
    (s : WMState) : WMState :=
  let failed := s.pendingTasks.filter (fun tid => strStartsWith tid workerType)
  { s with
    pendingTasks :=
      s.pendingTasks.filter (fun tid => !(strStartsWith tid workerType)),
    activeTimers :=
      s.activeTimers.filter (fun tid => !(strStartsWith tid workerType)),
    settled := s.settled ++ failed.map (fun tid =>
      (tid, Settlement.reject
        ("Worker " ++ workerType ++ " error: " ++ errMsg))) }

/-- Input options of the WorkerManager constructor: both fields may be
absent. -/
structure WorkerManagerOptionsIn where
  maxRetries : Option Nat
  timeout : Option Nat
deriving DecidableEq, Repr

/-- Resolved options of a constructed WorkerManager. -/
structure WorkerManagerOptions where
  maxRetries : Nat
  timeout : Nat
deriving DecidableEq, Repr

/-- Embeds the WorkerManager constructor option merge: defaults
maxRetries 3 and timeout 30000, overridden by present caller
options. -/
def mkWorkerManagerOptions (o : WorkerManagerOptionsIn) :
    WorkerManagerOptions :=
  { maxRetries := o.maxRetries.getD 3, timeout := o.timeout.getD 30000 }

/-! ## Dispatch Facade (NutritionLensApp.processImageParallel /
processAudioParallel and their single-threaded fallbacks)

The outcomes of the awaited external calls (sendTask resolving or
rejecting, the upload, the dietary analysis) are parameters; each
dispatch returns its result together with the trace of worker-manager
calls it made, so that call counts are part of the embedding. -/

/-- A worker-manager interaction the dispatch facade can perform. -/
inductive DispatchEvent where
  | generateTaskId
  | sendTaskCall
  | fallbackCall
deriving DecidableEq, Repr

/-- Result shape of uploadPhotoToUploadThing. -/
structure UploadedFile where
  url : String
  key : String
  size : Nat
deriving DecidableEq, Repr

/-- Result shape of analyzeDietaryQuestionWithAudio. -/
structure AnalysisResult where
  analysis : String
  audioUrl : String
  audioKey : String
deriving DecidableEq, Repr

/-- Result shape of the single-threaded image path: the uploaded file
and, when a question was asked, the analysis. -/
structure ImageResult where
  uploadedFile : UploadedFile
  analysis : Option AnalysisResult
deriving DecidableEq, Repr

/-- Embeds NutritionLensApp.processImageSingleThreaded: upload, then
analyze when a question is present; any error thrown inside is caught
and re-thrown wrapped in the single-threaded failure text. -/
def processImageSingleThreaded (upload : Except String UploadedFile)
    (question : Option String) (analyze : Except String AnalysisResult) :
    Except String ImageResult :=
  match upload with
  | .error e => .error ("Single-threaded image processing failed: " ++ e)
  | .ok u =>
    match question with
    | none => .ok { uploadedFile := u, analysis := none }
    | some _ =>
      match analyze with
      | .error e =>
        .error ("Single-threaded image processing failed: " ++ e)
      | .ok a => .ok { uploadedFile := u, analysis := some a }

/-- Result shape of the single-threaded audio path. -/
structure AudioResult where
  processed : Bool
  audioLength : Nat
  context : String
deriving DecidableEq, Repr

/-- Embeds NutritionLensApp.processAudioSingleThreaded: returns the
processed marker with the byte length and context; nothing in its try
block can throw. -/
def processAudioSingleThreaded (audioLength : Nat) (context : String) :
    Except String AudioResult :=
  .ok { processed := true, audioLength := audioLength, context := context }

/-- Embeds NutritionLensApp.processImageParallel: when the pool is
uninitialized or the image worker unavailable, run the fallback
directly; otherwise generate a task id and send, returning the send
result on success and running the fallback once when the send
rejects.  An error thrown by the fallback itself is outside the try
and propagates. -/
def processImageParallel (workersInitialized imageWorkerAvailable : Bool)
    (sendResult : Except String ImageResult)
    (upload : Except String UploadedFile) (question : Option String)
    (analyze : Except String AnalysisResult) :
    Except String ImageResult × List DispatchEvent :=
  if !workersInitialized || !imageWorkerAvailable then
    (processImageSingleThreaded upload question analyze,
     [.fallbackCall])
  else
    match sendResult with
    | .ok v => (.ok v, [.generateTaskId, .sendTaskCall])
    | .error _ =>
      (processImageSingleThreaded upload question analyze,
       [.generateTaskId, .sendTaskCall, .fallbackCall])

/-- Embeds NutritionLensApp.processAudioParallel, with the same
fallback structure as the image dispatch. -/
def processAudioParallel (workersInitialized audioWorkerAvailable : Bool)
    (sendResult : Except String AudioResult)
    (audioLength : Nat) (context : String) :
    Except String AudioResult × List DispatchEvent :=
  if !workersInitialized || !audioWorkerAvailable then
    (processAudioSingleThreaded audioLength context, [.fallbackCall])
  else
    match sendResult with
    | .ok v => (.ok v, [.generateTaskId, .sendTaskCall])
    | .error _ =>
      (processAudioSingleThreaded audioLength context,
       [.generateTaskId, .sendTaskCall, .fallbackCall])

/-! ## Camera lock discipline (NutritionLensApp)

Per-user camera state: the cameraInUse flag and the
lastCameraOperation timestamp.  Time is milliseconds as Nat.  The
values the mutable per-user maps hold at each instant are parameters
(functions of time), since other tasks may change them while a loop
sleeps. -/

/-- Per-user camera portion of the NutritionLensApp state. -/
structure CamState where
  cameraInUse : Bool
  lastOp : Nat
deriving DecidableEq, Repr

/-- Embeds NutritionLensApp.waitForCameraAvailability as a function of
the map contents over time: inUseAt t is the truthiness of
cameraInUse.get(userId) at instant t, lastOpAt t the value of
lastCameraOperation.get(userId) (absent key read as 0 by the source).
The loop polls while within maxWaitMs of startTime: when the camera is
free and at least 2000 ms have passed since the last operation it
returns true; otherwise it sleeps min(remainingCooldown, 500) ms in
the cooldown case and 500 ms in the busy case and polls again; once
the window is exhausted it returns false. -/
def waitForCameraAvailability (inUseAt : Nat → Bool)
    (lastOpAt : Nat → Option Nat) (startTime maxWaitMs : Nat)
    (now : Nat) : Bool :=
  if h : now - startTime < maxWaitMs then
    if inUseAt now = false then
      if _h2 : 2000 ≤ now - (lastOpAt now).getD 0 then true
      else
        waitForCameraAvailability inUseAt lastOpAt startTime maxWaitMs
          (now + min (2000 - (now - (lastOpAt now).getD 0)) 500)
    else
      waitForCameraAvailability inUseAt lastOpAt startTime maxWaitMs
        (now + 500)
  else false
termination_by startTime + maxWaitMs - now
decreasing_by
  · omega
  · omega

/-- Outcome of one awaited capturePhotoWithEnhancedTimeout call (or of
the capture step of takePhotoImmediateAsync): a photo, a null return,
or a thrown error. -/
inductive CapResult where
  | photo
  | nullPhoto
  | thrown
deriving DecidableEq, Repr

/-- User-visible outcome of takePhotoImmediateAsync, one per exit
path of the source. -/
inductive ImmediateOutcome where
  | noCamera
  | cameraBusy
  | analyzed
  | workflowFailed
  | captureNull
  | captureThrew
deriving DecidableEq, Repr

/-- Embeds NutritionLensApp.takePhotoImmediateAsync, camera-state
part.  hasCamera, the result of waitForCameraAvailability, the capture
outcome and whether processNutritionAnalysisWorkflow throws are
parameters; tFin is the clock value when the finally block runs.  The
early returns on missing camera and on wait failure are inside the
try, the workflow error is caught inside the try, and any thrown
capture error is caught by the outer catch, so every path reaches the
finally block that clears cameraInUse and stamps lastOp. -/
def takePhotoImmediateAsync (hasCamera waitResult : Bool)
    (cap : CapResult) (workflowThrows : Bool) (tFin : Nat)
    (s : CamState) : ImmediateOutcome × CamState :=
  let run : ImmediateOutcome × CamState :=
    if !hasCamera then (.noCamera, s)
    else if !waitResult then (.cameraBusy, s)
    else
      let s1 : CamState := { s with cameraInUse := true }
      match cap with
      | .photo =>
        if workflowThrows then (.workflowFailed, s1) else (.analyzed, s1)
      | .nullPhoto => (.captureNull, s1)
      | .thrown => (.captureThrew, s1)
  (run.1, { run.2 with cameraInUse := false, lastOp := tFin })

/-- Embeds the retry loop of capturePhotoWithRetryOptimized over the
per-attempt outcomes (the list has one entry per attempt actually
available, maxRetries in the source): a photo is returned at once, a
null return moves to the next attempt, a thrown error is caught and
retried unless it was the final attempt, which returns null; an
exhausted loop returns null. -/
def retryLoop : List CapResult → Option Unit
  | [] => none
  | r :: rest =>
    match r with
    | .photo => some ()
    | .nullPhoto => retryLoop rest
    | .thrown => if rest.isEmpty then none else retryLoop rest

/-- Embeds NutritionLensApp.capturePhotoWithRetryOptimized,
camera-state part.  When waitForCameraAvailability fails the function
returns null before touching the flag; otherwise it sets cameraInUse,
runs the retry loop inside try, and the finally block clears
cameraInUse and stamps lastOp on every exit of the loop. -/
def capturePhotoWithRetryOptimized (waitResult : Bool)
    (attempts : List CapResult) (tFin : Nat) (s : CamState) :
    Option Unit × CamState :=
  if !waitResult then (none, s)
  else
    let s1 : CamState := { s with cameraInUse := true }
    (retryLoop attempts, { s1 with cameraInUse := false, lastOp := tFin })

/-! ## Concurrent capture triggers (C4 interleaving model)

Two trigger sources of the same user are run at await-point
granularity over the shared camera state: the streaming timer tick
body (setupStreamingPhotoInterval) and the short-press capture
(takePhotoImmediateAsync).  Code between two awaits runs atomically on
the event loop; the availability poll that succeeds and the statements
up to the next await form one atomic step.  Program counters: 0 =
about to poll availability, 1 = availability observed and capture in
flight (awaiting requestPhoto), 2 = done. -/

/-- The availability condition a successful waitForCameraAvailability
poll observes: camera not in use and at least 2000 ms since the last
operation. -/
def observesAvailable (s : CamState) (now : Nat) : Bool :=
  !s.cameraInUse && (2000 ≤ now - s.lastOp)

/-- Which trigger source the scheduler runs next. -/
inductive TriggerProc where
  | streaming
  | button
deriving DecidableEq, Repr

/-- Joint state of the two in-flight trigger bodies and the shared
camera state, plus a record of whether each trigger observed the
camera as available when it acquired. -/
structure TriggerSysState where
  cam : CamState
  streamingPC : Nat
  buttonPC : Nat
  streamingObserved : Bool
  buttonObserved : Bool
deriving DecidableEq, Repr

/-- One step of the streaming tick body of
setupStreamingPhotoInterval: at pc 0 it polls availability; on
success it starts capturePhotoWithEnhancedTimeout WITHOUT setting
cameraInUse (the source never sets the flag on this path); when the
capture completes (pc 1) it stamps lastCameraOperation. -/
def streamingStep (now : Nat) (s : TriggerSysState) : TriggerSysState :=
  if s.streamingPC = 0 then
    if observesAvailable s.cam now then
      { s with streamingPC := 1, streamingObserved := true }
    else s
  else if s.streamingPC = 1 then
    { s with streamingPC := 2, cam := { s.cam with lastOp := now } }
  else s

/-- One step of the short-press body of takePhotoImmediateAsync: at
pc 0 it polls availability and, atomically with the successful poll,
sets cameraInUse before awaiting the capture; when the capture and
workflow complete (pc 1) the finally block clears cameraInUse and
stamps lastCameraOperation. -/
def buttonStep (now : Nat) (s : TriggerSysState) : TriggerSysState :=
  if s.buttonPC = 0 then
    if observesAvailable s.cam now then
      { s with buttonPC := 1, buttonObserved := true,
               cam := { s.cam with cameraInUse := true } }
    else s
  else if s.buttonPC = 1 then
    { s with buttonPC := 2,
             cam := { s.cam with cameraInUse := false, lastOp := now } }
  else s

/-- Run a schedule: a list of (which trigger runs, at what time). -/
def runTriggerSchedule (sched : List (TriggerProc × Nat))
    (s : TriggerSysState) : TriggerSysState :=
  sched.foldl (fun st ev =>
    match ev.1 with
    | .streaming => streamingStep ev.2 st
    | .button => buttonStep ev.2 st) s

/-- Initial joint state: camera free, last operation at time 0, both
trigger bodies about to poll. -/
def triggerInit : TriggerSysState :=
  { cam := { cameraInUse := false, lastOp := 0 },
    streamingPC := 0, buttonPC := 0,
    streamingObserved := false, buttonObserved := false }

/-! ## Session teardown (NutritionLensApp.onStop / onSession setup) -/

/-- An association-list embedding of a JS Map with string keys. -/
def mapSet {α : Type} (m : List (String × α)) (k : String) (v : α) :
    List (String × α) :=
  if m.any (fun p => p.1 == k) then
    m.map (fun p => if p.1 == k then (k, v) else p)
  else m ++ [(k, v)]

/-- Map.delete: removes the binding for the key. -/
def mapDelete {α : Type} (m : List (String × α)) (k : String) :
    List (String × α) :=
  m.filter (fun p => !(p.1 == k))

/-- Map.get: the value bound to the key, if any. -/
def mapGet {α : Type} (m : List (String × α)) (k : String) : Option α :=
  (m.find? (fun p => p.1 == k)).map (fun p => p.2)

/-- A cleanup handler registered via addSessionCleanupHandler: either
the closure clearing the streaming interval or an SDK event
unsubscribe closure. -/
inductive CleanupHandler where
  | clearInt (id : Nat)
  | unsub (id : Nat)
deriving DecidableEq, Repr

/-- The NutritionLensApp per-user and per-session mutable state: the
eight user-keyed maps, the session-keyed cleanup handlers, and the
sets of live interval timers and live event subscriptions.  Session
handles are abstracted to numeric ids. -/
structure AppState where
  isStreamingPhotos : List (String × Bool)
  nextPhotoTime : List (String × Nat)
  cameraReady : List (String × Bool)
  cameraInUse : List (String × Bool)
  lastCameraOperation : List (String × Nat)
  userSessions : List (String × Nat)
  isCapturingQuestion : List (String × Bool)
  capturedQuestions : List (String × String)
  cleanupHandlers : List (String × List CleanupHandler)
  activeIntervals : List Nat
  activeSubscriptions : List Nat
deriving DecidableEq, Repr

/-- Embeds NutritionLensApp.addSessionCleanupHandler: push the handler
onto the (possibly missing, then empty) list for the session. -/
def addSessionCleanupHandler (sessionId : String) (h : CleanupHandler)
    (s : AppState) : AppState :=
  { s with cleanupHandlers :=
      (mapSet s.cleanupHandlers sessionId
        ((mapGet s.cleanupHandlers sessionId).getD [] ++ [h])) }

/-- Embeds NutritionLensApp.setupStreamingPhotoInterval, state part:
setInterval registers a live timer and a cleanup handler that clears
it is added for the session. -/
def setupStreamingPhotoInterval (sessionId : String) (intervalId : Nat)
    (s : AppState) : AppState :=
  addSessionCleanupHandler sessionId (.clearInt intervalId)
    { s with activeIntervals := s.activeIntervals ++ [intervalId] }

/-- Running one cleanup handler: clearInterval removes the timer from
the live set; an unsubscribe closure removes the subscription. -/
def runCleanupHandler (s : AppState) (h : CleanupHandler) : AppState :=
  match h with
  | .clearInt id =>
    { s with activeIntervals := s.activeIntervals.filter (fun x => x ≠ id) }
  | .unsub id =>
    { s with activeSubscriptions :=
        s.activeSubscriptions.filter (fun x => x ≠ id) }

/-- Embeds NutritionLensApp.onStop: run every cleanup handler
registered for the session and drop their list, then delete the
entries of all eight user-keyed maps for the stopping user. -/
def onStop (sessionId userId : String) (s : AppState) : AppState :=
  let s1 := ((mapGet s.cleanupHandlers sessionId).getD []).foldl
    runCleanupHandler s
  { s1 with
    cleanupHandlers := mapDelete s1.cleanupHandlers sessionId,
    isStreamingPhotos := mapDelete s1.isStreamingPhotos userId,
    nextPhotoTime := mapDelete s1.nextPhotoTime userId,
    cameraReady := mapDelete s1.cameraReady userId,
    cameraInUse := mapDelete s1.cameraInUse userId,
    lastCameraOperation := mapDelete s1.lastCameraOperation userId,
    userSessions := mapDelete s1.userSessions userId,
    isCapturingQuestion := mapDelete s1.isCapturingQuestion userId,
    capturedQuestions := mapDelete s1.capturedQuestions userId }

/-! ## Nutrition persistence row builder (insertNutritionData) -/

/-- A numeric field of a NutritionAnalysis record as JS sees it:
absent (undefined) or present with an integer value. -/
inductive JsNum where
  | undef
  | val (n : Int)
deriving DecidableEq, Repr

/-- Embeds the JS expression (x or null) applied to a numeric field in
insertNutritionData: undefined and the falsy number 0 both become
null (none); any other number is kept. -/
def jsNumOrNull : JsNum → Option Int
  | .undef => none
  | .val n => if n = 0 then none else some n

/-- A string field as JS sees s it: absent or present. -/
inductive JsStr where
  | sundef
  | sval (s : String)
deriving DecidableEq, Repr

/-- Embeds (x or null) applied to the imgURL string field: undefined
and the falsy empty string become null. -/
def jsStrOrNull : JsStr → Option String
  | .sundef => none
  | .sval s => if s = "" then none else some s

/-- The NutritionAnalysis record fields read by insertNutritionData. -/
structure NutritionAnalysis where
  calories : JsNum
  fats : JsNum
  protein : JsNum
  carbs : JsNum
  sugar : JsNum
  cholesterol : JsNum
  vitamin_a : JsNum
  vitamin_c : JsNum
  vitamin_d : JsNum
  vitamin_e : JsNum
  vitamin_k : JsNum
  vitamin_b1 : JsNum
  vitamin_b2 : JsNum
  vitamin_b3 : JsNum
  vitamin_b5 : JsNum
  vitamin_b6 : JsNum
  vitamin_b7 : JsNum
  vitamin_b9 : JsNum
  vitamin_b12 : JsNum
  potassium : JsNum
  calcium : JsNum
  iron : JsNum
  sodium : JsNum
  imgURL : JsStr
deriving DecidableEq, Repr

/-- The row insertNutritionData builds for the nutrition_facts table:
every nutrient column is nullable. -/
structure InsertRow where
  calories : Option Int
  fats : Option Int
  protein : Option Int
  carbs : Option Int
  sugar : Option Int
  cholesterol : Option Int
  vitamin_a : Option Int
  vitamin_c : Option Int
  vitamin_d : Option Int
  vitamin_e : Option Int
  vitamin_k : Option Int
  vitamin_b1 : Option Int
  vitamin_b2 : Option Int
  vitamin_b3 : Option Int
  vitamin_b5 : Option Int
  vitamin_b6 : Option Int
  vitamin_b7 : Option Int
  vitamin_b9 : Option Int
  vitamin_b12 : Option Int
  potassium : Option Int
  calcium : Option Int
  iron : Option Int
  sodium : Option Int
  imgURL : Option String
  timestamp : String
deriving DecidableEq, Repr

/-- Embeds the insertData object literal of insertNutritionData: each
field is the source field with (x or null) applied; the timestamp is
the current time rendered as an ISO string. -/
def buildInsertRow (d : NutritionAnalysis) (nowIso : String) : InsertRow :=
  { calories := jsNumOrNull d.calories
    fats := jsNumOrNull d.fats
    protein := jsNumOrNull d.protein
    carbs := jsNumOrNull d.carbs
    sugar := jsNumOrNull d.sugar
    cholesterol := jsNumOrNull d.cholesterol
    vitamin_a := jsNumOrNull d.vitamin_a
    vitamin_c := jsNumOrNull d.vitamin_c
    vitamin_d := jsNumOrNull d.vitamin_d
    vitamin_e := jsNumOrNull d.vitamin_e
    vitamin_k := jsNumOrNull d.vitamin_k
    vitamin_b1 := jsNumOrNull d.vitamin_b1
    vitamin_b2 := jsNumOrNull d.vitamin_b2
    vitamin_b3 := jsNumOrNull d.vitamin_b3
    vitamin_b5 := jsNumOrNull d.vitamin_b5
    vitamin_b6 := jsNumOrNull d.vitamin_b6
    vitamin_b7 := jsNumOrNull d.vitamin_b7
    vitamin_b9 := jsNumOrNull d.vitamin_b9
    vitamin_b12 := jsNumOrNull d.vitamin_b12
    potassium := jsNumOrNull d.potassium
    calcium := jsNumOrNull d.calcium
    iron := jsNumOrNull d.iron
    sodium := jsNumOrNull d.sodium
    imgURL := jsStrOrNull d.imgURL
    timestamp := nowIso }

/-! ## Helper lemmas -/

theorem keyErase_contains_self (l : List String) (k : String) :
    (keyErase l k).contains k = false := by
  simp [keyErase]

theorem mapGet_mapDelete_self {α : Type} (m : List (String × α))
    (k : String) : mapGet (mapDelete m k) k = none := by
  induction m with
  | nil => rfl
  | cons p t ih =>
    by_cases h : p.1 = k
    · simp only [mapDelete, mapGet] at ih ⊢
      simp [h, ih]
    · simp only [mapDelete, mapGet] at ih ⊢
      simp [h, ih]

theorem mapGet_mapSet_self {α : Type} (m : List (String × α))
    (k : String) (v : α) : mapGet (mapSet m k v) k = some v := by
  induction m with
  | nil => simp [mapSet, mapGet]
  | cons p t ih =>
    by_cases h : p.1 = k
    · simp [mapSet, mapGet, h]
    · by_cases ht : t.any (fun p => p.1 == k)
      · simp only [mapSet, List.any_cons, h] at ih ⊢
        simp only [ht] at ih ⊢
        simpa [mapGet, h] using ih
      · simp only [mapSet, List.any_cons, h] at ih ⊢
        simp only [ht] at ih ⊢
        simpa [mapGet, h] using ih

/-! ## Claim C1 -/

/-- Claim C1 counterexample: with worker type image initialized and
one pending image task, a runtime error routed through
handleWorkerError leaves the Worker Record in place, so
isWorkerAvailable still reports true — contradicting the claim that
the record is removed and the type becomes unavailable. -/
theorem c1_counterexample :
    isWorkerAvailable "image"
      (handleWorkerError "image" "boom"
        { workers := ["image"], pendingTasks := ["image_1_a"],
          activeTimers := ["image_1_a"], settled := [] }) = true := by
  rfl

/-- Claim C1 (amended): when a worker of type T raises a runtime
error, the Worker Pool Manager force-fails (rejects with an error
naming T) every Pending Task Entry whose task id is prefixed by T and
removes those entries, but it does not remove the Worker Record for
T: the workers map and hence isWorkerAvailable(T) are unchanged. -/
theorem c1_error_force_fails_but_record_retained
    (s : WMState) (workerType errMsg tid : String)
    (hmem : tid ∈ s.pendingTasks)
    (hpre : strStartsWith tid workerType = true) :
    tid ∉ (handleWorkerError workerType errMsg s).pendingTasks ∧
    (tid, Settlement.reject
        ("Worker " ++ workerType ++ " error: " ++ errMsg))
      ∈ (handleWorkerError workerType errMsg s).settled ∧
    (handleWorkerError workerType errMsg s).workers = s.workers ∧
    isWorkerAvailable workerType (handleWorkerError workerType errMsg s)
      = isWorkerAvailable workerType s := by
  refine ⟨?_, ?_, rfl, rfl⟩
  · simp [handleWorkerError]
    intro hin
    simp [hpre]
  · simp [handleWorkerError]
    exact Or.inr ⟨hmem, hpre⟩

/-- Claim C1 witness: the amended theorem applied at the concrete
one-task state of the counterexample. -/
theorem c1_error_force_fails_but_record_retained_witness :
    "image_1_a" ∉ (handleWorkerError "image" "boom"
        { workers := ["image"], pendingTasks := ["image_1_a"],
          activeTimers := ["image_1_a"], settled := [] }).pendingTasks ∧
    ("image_1_a", Settlement.reject "Worker image error: boom")
      ∈ (handleWorkerError "image" "boom"
        { workers := ["image"], pendingTasks := ["image_1_a"],
          activeTimers := ["image_1_a"], settled := [] }).settled ∧
    (handleWorkerError "image" "boom"
        { workers := ["image"], pendingTasks := ["image_1_a"],
          activeTimers := ["image_1_a"], settled := [] }).workers
      = ["image"] ∧
    isWorkerAvailable "image" (handleWorkerError "image" "boom"
        { workers := ["image"], pendingTasks := ["image_1_a"],
          activeTimers := ["image_1_a"], settled := [] })
      = isWorkerAvailable "image"
        { workers := ["image"], pendingTasks := ["image_1_a"],
          activeTimers := ["image_1_a"], settled := [] } :=
  c1_error_force_fails_but_record_retained
    { workers := ["image"], pendingTasks := ["image_1_a"],
      activeTimers := ["image_1_a"], settled := [] }
    "image" "boom" "image_1_a" (by simp) (by rfl)

/-! ## Claim C2 -/

/-- Claim C2: with the pool initialized and the worker of the task
type available, a rejected sendTask promise makes the dispatch run
the in-process fallback exactly once and return its result, and when
the fallback itself throws, that error is what the dispatch
propagates.  Stated for both dispatch operations. -/
theorem c2_send_rejection_falls_back_once
    (wi av : Bool) (e : String) (sr : Except String ImageResult)
    (upload : Except String UploadedFile) (question : Option String)
    (analyze : Except String AnalysisResult)
    (ea : String) (sra : Except String AudioResult)
    (audioLength : Nat) (context : String)
    (hw : wi = true) (ha : av = true)
    (hs : sr = .error e) (hsa : sra = .error ea) :
    ((processImageParallel wi av sr upload question analyze).1 =
       processImageSingleThreaded upload question analyze ∧
     (processImageParallel wi av sr upload question analyze).2.count
       .fallbackCall = 1 ∧
     (∀ e2, processImageSingleThreaded upload question analyze = .error e2 →
       (processImageParallel wi av sr upload question analyze).1 =
         .error e2)) ∧
    ((processAudioParallel wi av sra audioLength context).1 =
       processAudioSingleThreaded audioLength context ∧
     (processAudioParallel wi av sra audioLength context).2.count
       .fallbackCall = 1) := by
  subst hw ha hs hsa
  refine ⟨⟨rfl, rfl, ?_⟩, rfl, rfl⟩
  intro e2 hf
  simpa [processImageParallel] using hf

/-- Claim C2 witness: the theorem applied with an available image and
audio worker, a rejecting send on both, a failing upload (so the
fallback also throws and its wrapped error is returned) and a
concrete audio payload. -/
theorem c2_send_rejection_falls_back_once_witness :
    ((processImageParallel true true (.error "send boom")
        (.error "net down") none (.ok ⟨"a", "u", "k"⟩)).1 =
       processImageSingleThreaded (.error "net down") none
         (.ok ⟨"a", "u", "k"⟩) ∧
     (processImageParallel true true (.error "send boom")
        (.error "net down") none (.ok ⟨"a", "u", "k"⟩)).2.count
       .fallbackCall = 1 ∧
     (∀ e2, processImageSingleThreaded (.error "net down") none
         (.ok ⟨"a", "u", "k"⟩) = .error e2 →
       (processImageParallel true true (.error "send boom")
          (.error "net down") none (.ok ⟨"a", "u", "k"⟩)).1 =
         .error e2)) ∧
    ((processAudioParallel true true (.error "send boom") 12 "ctx").1 =
       processAudioSingleThreaded 12 "ctx" ∧
     (processAudioParallel true true (.error "send boom") 12
        "ctx").2.count .fallbackCall = 1) :=
  c2_send_rejection_falls_back_once true true "send boom"
    (.error "send boom") (.error "net down") none (.ok ⟨"a", "u", "k"⟩)
    "send boom" (.error "send boom") 12 "ctx" rfl rfl rfl rfl

/-! ## Claim C5 -/

/-- Claim C5: when the worker pool is not initialized or the worker of
the task type is unavailable, each dispatch operation completes using
only the in-process fallback and performs no worker-manager calls at
all: the trace is exactly one fallback call, with zero sendTask calls
and zero generated task ids. -/
theorem c5_uninitialized_pool_uses_only_fallback
    (wi av : Bool) (sr : Except String ImageResult)
    (upload : Except String UploadedFile) (question : Option String)
    (analyze : Except String AnalysisResult)
    (sra : Except String AudioResult)
    (audioLength : Nat) (context : String)
    (h : wi = false ∨ av = false) :
    (processImageParallel wi av sr upload question analyze =
       (processImageSingleThreaded upload question analyze,
        [.fallbackCall]) ∧
     (processImageParallel wi av sr upload question analyze).2.count
       .sendTaskCall = 0 ∧
     (processImageParallel wi av sr upload question analyze).2.count
       .generateTaskId = 0) ∧
    (processAudioParallel wi av sra audioLength context =
       (processAudioSingleThreaded audioLength context,
        [.fallbackCall]) ∧
     (processAudioParallel wi av sra audioLength context).2.count
       .sendTaskCall = 0 ∧
     (processAudioParallel wi av sra audioLength context).2.count
       .generateTaskId = 0) := by
  rcases h with h | h <;> subst h <;>
    refine ⟨⟨?_, ?_, ?_⟩, ?_, ?_, ?_⟩ <;>
    simp [processImageParallel, processAudioParallel]

/-- Claim C5 witness: the theorem applied with an uninitialized pool,
a send result that would succeed (showing it is never consulted) and
concrete fallback inputs. -/
theorem c5_uninitialized_pool_uses_only_fallback_witness :
    (processImageParallel false true (.ok ⟨⟨"a", "u", 3⟩, none⟩)
        (.ok ⟨"a", "u", 3⟩) none (.ok ⟨"t", "au", "ak"⟩) =
       (processImageSingleThreaded (.ok ⟨"a", "u", 3⟩) none
          (.ok ⟨"t", "au", "ak"⟩), [.fallbackCall]) ∧
     (processImageParallel false true (.ok ⟨⟨"a", "u", 3⟩, none⟩)
        (.ok ⟨"a", "u", 3⟩) none (.ok ⟨"t", "au", "ak"⟩)).2.count
       .sendTaskCall = 0 ∧
     (processImageParallel false true (.ok ⟨⟨"a", "u", 3⟩, none⟩)
        (.ok ⟨"a", "u", 3⟩) none (.ok ⟨"t", "au", "ak"⟩)).2.count
       .generateTaskId = 0) ∧
    (processAudioParallel false true (.ok ⟨true, 12, "ctx"⟩) 12 "ctx" =
       (processAudioSingleThreaded 12 "ctx", [.fallbackCall]) ∧
     (processAudioParallel false true (.ok ⟨true, 12, "ctx"⟩) 12
        "ctx").2.count .sendTaskCall = 0 ∧
     (processAudioParallel false true (.ok ⟨true, 12, "ctx"⟩) 12
        "ctx").2.count .generateTaskId = 0) :=
  c5_uninitialized_pool_uses_only_fallback false true
    (.ok ⟨⟨"a", "u", 3⟩, none⟩) (.ok ⟨"a", "u", 3⟩) none
    (.ok ⟨"t", "au", "ak"⟩) (.ok ⟨true, 12, "ctx"⟩) 12 "ctx"
    (Or.inl rfl)

theorem keyErase_not_mem (l : List String) (k : String) :
    k ∉ keyErase l k := by
  simp [keyErase]

/-- A resolution for an id with no registered pending entry leaves the
manager state unchanged. -/
theorem handleWorkerMessage_not_pending (resp : WorkerResponse)
    (s : WMState) (h : resp.id ∉ s.pendingTasks) :
    handleWorkerMessage resp s = s := by
  simp [handleWorkerMessage, h]

/-- A timeout whose timer is not scheduled (already cleared or fired)
leaves the manager state unchanged. -/
theorem timeoutFires_not_scheduled (tmo : Nat) (id : String)
    (s : WMState) (h : id ∉ s.activeTimers) :
    timeoutFires tmo id s = s := by
  simp [timeoutFires, h]

/-! ## Claim C3 -/

/-- Claim C3: for a task id with a registered pending entry and a
scheduled timeout timer (the state sendTask leaves), the timeout
firing removes the entry and rejects the promise with the timeout
error, and a response for that id arriving afterwards is silently
dropped (the state, settlements included, is unchanged); conversely
after a response has settled the task, the timeout is cleared and can
no longer fire.  The configured timeout defaults to 30000 ms. -/
theorem c3_timeout_and_response_mutually_exclusive
    (s : WMState) (id : String) (resp : WorkerResponse) (tmo : Nat)
    (hp : id ∈ s.pendingTasks)
    (ht : id ∈ s.activeTimers)
    (hid : resp.id = id) :
    ((timeoutFires tmo id s).pendingTasks.contains id = false ∧
     (timeoutFires tmo id s).settled = s.settled ++
       [(id, .reject ("Task " ++ id ++ " timed out after " ++
         toString tmo ++ "ms"))] ∧
     handleWorkerMessage resp (timeoutFires tmo id s) =
       timeoutFires tmo id s) ∧
    (timeoutFires tmo id (handleWorkerMessage resp s) =
       handleWorkerMessage resp s) ∧
    (mkWorkerManagerOptions { maxRetries := none, timeout := none
      }).timeout = 30000 := by
  subst hid
  refine ⟨⟨?_, ?_, ?_⟩, ?_, rfl⟩
  · simp [timeoutFires, ht, keyErase]
  · simp [timeoutFires, ht]
  · refine handleWorkerMessage_not_pending resp _ ?_
    simp [timeoutFires, ht, keyErase]
  · refine timeoutFires_not_scheduled tmo resp.id _ ?_
    simp [handleWorkerMessage, hp, keyErase]

/-- Claim C3 witness: the theorem applied to the one-task state left
by a successful sendTask of an image task. -/
theorem c3_timeout_and_response_mutually_exclusive_witness :
    ((timeoutFires 30000 "image_1_a"
        { workers := ["image"], pendingTasks := ["image_1_a"],
          activeTimers := ["image_1_a"], settled := [] }
      ).pendingTasks.contains "image_1_a" = false ∧
     (timeoutFires 30000 "image_1_a"
        { workers := ["image"], pendingTasks := ["image_1_a"],
          activeTimers := ["image_1_a"], settled := [] }).settled =
       [("image_1_a", .reject
         "Task image_1_a timed out after 30000ms")] ∧
     handleWorkerMessage ⟨"image_1_a", true, "r", none⟩
       (timeoutFires 30000 "image_1_a"
         { workers := ["image"], pendingTasks := ["image_1_a"],
           activeTimers := ["image_1_a"], settled := [] }) =
       timeoutFires 30000 "image_1_a"
         { workers := ["image"], pendingTasks := ["image_1_a"],
           activeTimers := ["image_1_a"], settled := [] }) ∧
    (timeoutFires 30000 "image_1_a"
       (handleWorkerMessage ⟨"image_1_a", true, "r", none⟩
         { workers := ["image"], pendingTasks := ["image_1_a"],
           activeTimers := ["image_1_a"], settled := [] }) =
       handleWorkerMessage ⟨"image_1_a", true, "r", none⟩
         { workers := ["image"], pendingTasks := ["image_1_a"],
           activeTimers := ["image_1_a"], settled := [] }) ∧
    (mkWorkerManagerOptions { maxRetries := none, timeout := none
      }).timeout = 30000 := by
  have h := c3_timeout_and_response_mutually_exclusive
    { workers := ["image"], pendingTasks := ["image_1_a"],
      activeTimers := ["image_1_a"], settled := [] }
    "image_1_a" ⟨"image_1_a", true, "r", none⟩ 30000
    (by simp) (by simp) rfl
  simpa using h

/-! ## Claim C6 -/

/-- Claim C6: resolving the task channel for an id with a registered
entry invokes the stored callback exactly once (exactly one settlement
is appended) and removes the entry, so resolving the same id again is
a no-op; resolving an id with no registered entry changes nothing. -/
theorem c6_resolution_exactly_once_idempotent
    (s : WMState) (resp : WorkerResponse) :
    (resp.id ∈ s.pendingTasks →
      (handleWorkerMessage resp s).settled =
        s.settled ++ [(resp.id, runCallback resp)] ∧
      (handleWorkerMessage resp s).pendingTasks.contains resp.id
        = false ∧
      handleWorkerMessage resp (handleWorkerMessage resp s) =
        handleWorkerMessage resp s) ∧
    (resp.id ∉ s.pendingTasks →
      handleWorkerMessage resp s = s) := by
  constructor
  · intro hp
    have hcon : resp.id ∉ (handleWorkerMessage resp s).pendingTasks := by
      simp [handleWorkerMessage, hp, keyErase]
    refine ⟨by simp [handleWorkerMessage, hp], ?_, ?_⟩
    · simpa using hcon
    · exact handleWorkerMessage_not_pending resp _ hcon
  · intro hp
    exact handleWorkerMessage_not_pending resp s hp

/-- Claim C6 witness: the theorem applied at a state with one pending
audio task, for both a registered and an unregistered response id. -/
theorem c6_resolution_exactly_once_idempotent_witness :
    ((handleWorkerMessage ⟨"audio_1_a", true, "r", none⟩
        { workers := ["audio"], pendingTasks := ["audio_1_a"],
          activeTimers := ["audio_1_a"], settled := [] }).settled =
       [("audio_1_a", runCallback ⟨"audio_1_a", true, "r", none⟩)] ∧
     (handleWorkerMessage ⟨"audio_1_a", true, "r", none⟩
        { workers := ["audio"], pendingTasks := ["audio_1_a"],
          activeTimers := ["audio_1_a"], settled := [] }
       ).pendingTasks.contains "audio_1_a" = false ∧
     handleWorkerMessage ⟨"audio_1_a", true, "r", none⟩
       (handleWorkerMessage ⟨"audio_1_a", true, "r", none⟩
         { workers := ["audio"], pendingTasks := ["audio_1_a"],
           activeTimers := ["audio_1_a"], settled := [] }) =
       handleWorkerMessage ⟨"audio_1_a", true, "r", none⟩
         { workers := ["audio"], pendingTasks := ["audio_1_a"],
           activeTimers := ["audio_1_a"], settled := [] }) ∧
    (handleWorkerMessage ⟨"ghost", false, "", none⟩
        { workers := ["audio"], pendingTasks := ["audio_1_a"],
          activeTimers := ["audio_1_a"], settled := [] } =
       { workers := ["audio"], pendingTasks := ["audio_1_a"],
         activeTimers := ["audio_1_a"], settled := [] }) := by
  have h1 := (c6_resolution_exactly_once_idempotent
    { workers := ["audio"], pendingTasks := ["audio_1_a"],
      activeTimers := ["audio_1_a"], settled := [] }
    ⟨"audio_1_a", true, "r", none⟩).1 (by simp)
  have h2 := (c6_resolution_exactly_once_idempotent
    { workers := ["audio"], pendingTasks := ["audio_1_a"],
      activeTimers := ["audio_1_a"], settled := [] }
    ⟨"ghost", false, "", none⟩).2 (by simp)
  exact ⟨by simpa using h1, h2⟩

/-! ## Claim C4 -/

/-- Claim C4 (code bug exhibited): the streaming timer tick acquires
the camera at t=5000 (observes it available) and starts its capture,
but setupStreamingPhotoInterval never sets cameraInUse; a short-press
capture polling at t=5200, while the streaming capture is still in
flight, therefore also observes the camera as available and proceeds.
Both trigger bodies are mid-capture (program counter 1) having each
observed availability, contradicting the claimed mutual exclusion. -/
theorem c4_streaming_and_button_both_observe_available :
    (runTriggerSchedule [(.streaming, 5000), (.button, 5200)]
      triggerInit).streamingObserved = true ∧
    (runTriggerSchedule [(.streaming, 5000), (.button, 5200)]
      triggerInit).buttonObserved = true ∧
    (runTriggerSchedule [(.streaming, 5000), (.button, 5200)]
      triggerInit).streamingPC = 1 ∧
    (runTriggerSchedule [(.streaming, 5000), (.button, 5200)]
      triggerInit).buttonPC = 1 := by
  decide

/-! ## Claim C7 -/

/-- Claim C7: every exit path of takePhotoImmediateAsync runs its
finally block, and every exit path of capturePhotoWithRetryOptimized
that set the camera-in-use flag (its availability wait succeeded) runs
its finally block: afterwards cameraInUse is false and the
last-operation timestamp is the finally-block clock value, for every
combination of capture outcome, workflow failure and prior state. -/
theorem c7_camera_flag_released_on_all_paths
    (hasCamera waitResult : Bool) (cap : CapResult)
    (workflowThrows : Bool) (tFin : Nat) (s : CamState)
    (waitResult2 : Bool) (attempts : List CapResult) (tFin2 : Nat)
    (s2 : CamState) (hw : waitResult2 = true) :
    ((takePhotoImmediateAsync hasCamera waitResult cap workflowThrows
        tFin s).2.cameraInUse = false ∧
     (takePhotoImmediateAsync hasCamera waitResult cap workflowThrows
        tFin s).2.lastOp = tFin) ∧
    ((capturePhotoWithRetryOptimized waitResult2 attempts tFin2
        s2).2.cameraInUse = false ∧
     (capturePhotoWithRetryOptimized waitResult2 attempts tFin2
        s2).2.lastOp = tFin2) := by
  subst hw
  exact ⟨⟨rfl, rfl⟩, rfl, rfl⟩

/-- Claim C7 witness: the theorem applied to a concrete run in which
the capture throws inside takePhotoImmediateAsync and every retry
attempt of capturePhotoWithRetryOptimized returns null, starting from
a state holding the camera. -/
theorem c7_camera_flag_released_on_all_paths_witness :
    ((takePhotoImmediateAsync true true .thrown true 9000
        { cameraInUse := true, lastOp := 100 }).2.cameraInUse = false ∧
     (takePhotoImmediateAsync true true .thrown true 9000
        { cameraInUse := true, lastOp := 100 }).2.lastOp = 9000) ∧
    ((capturePhotoWithRetryOptimized true [.nullPhoto, .nullPhoto] 9500
        { cameraInUse := true, lastOp := 100 }).2.cameraInUse = false ∧
     (capturePhotoWithRetryOptimized true [.nullPhoto, .nullPhoto] 9500
        { cameraInUse := true, lastOp := 100 }).2.lastOp = 9500) :=
  c7_camera_flag_released_on_all_paths true true .thrown true 9000
    { cameraInUse := true, lastOp := 100 } true [.nullPhoto, .nullPhoto]
    9500 { cameraInUse := true, lastOp := 100 } rfl

/-! ## Claim C8 -/

/-- An exhausted wait window (at or past maxWaitMs after startTime)
makes waitForCameraAvailability return false at once. -/
theorem waitForCameraAvailability_timeout_false
    (inUseAt : Nat → Bool) (lastOpAt : Nat → Option Nat)
    (startTime maxWaitMs now : Nat)
    (h : maxWaitMs ≤ now - startTime) :
    waitForCameraAvailability inUseAt lastOpAt startTime maxWaitMs now
      = false := by
  unfold waitForCameraAvailability
  simp [Nat.not_lt.2 h]

/-- A true return of waitForCameraAvailability exhibits a poll instant
inside the wait window at which the camera was free and the 2000 ms
cooldown since the last operation had elapsed. -/
theorem waitForCameraAvailability_true_implies
    (inUseAt : Nat → Bool) (lastOpAt : Nat → Option Nat)
    (startTime maxWaitMs : Nat) :
    ∀ fuel now, startTime + maxWaitMs - now ≤ fuel →
      waitForCameraAvailability inUseAt lastOpAt startTime maxWaitMs now
        = true →
      ∃ t, now ≤ t ∧ t - startTime < maxWaitMs ∧ inUseAt t = false ∧
        2000 ≤ t - (lastOpAt t).getD 0 := by
  intro fuel
  induction fuel with
  | zero =>
    intro now hf hw
    unfold waitForCameraAvailability at hw
    rw [dif_neg (by omega)] at hw
    exact absurd hw (by simp)
  | succ f ih =>
    intro now hf hw
    unfold waitForCameraAvailability at hw
    by_cases hg : now - startTime < maxWaitMs
    · rw [dif_pos hg] at hw
      by_cases hu : inUseAt now = false
      · rw [if_pos hu] at hw
        by_cases hc : 2000 ≤ now - (lastOpAt now).getD 0
        · exact ⟨now, le_refl now, hg, hu, hc⟩
        · rw [dif_neg hc] at hw
          obtain ⟨t, h1, h2, h3, h4⟩ := ih _ (by omega) hw
          exact ⟨t, by omega, h2, h3, h4⟩
      · rw [if_neg hu] at hw
        obtain ⟨t, h1, h2, h3, h4⟩ := ih _ (by omega) hw
        exact ⟨t, by omega, h2, h3, h4⟩
    · rw [dif_neg hg] at hw
      exact absurd hw (by simp)

/-- Claim C8: camera acquisition returns true only by observing, at
some poll instant within the maxWaitMs window, that the camera-in-use
flag is false and at least 2000 ms have elapsed since the last
completed operation; and once the wait window is exhausted it returns
false rather than acquiring. -/
theorem c8_acquisition_requires_free_and_cooldown
    (inUseAt : Nat → Bool) (lastOpAt : Nat → Option Nat)
    (startTime maxWaitMs now : Nat) :
    (waitForCameraAvailability inUseAt lastOpAt startTime maxWaitMs now
        = true →
      ∃ t, now ≤ t ∧ t - startTime < maxWaitMs ∧ inUseAt t = false ∧
        2000 ≤ t - (lastOpAt t).getD 0) ∧
    (maxWaitMs ≤ now - startTime →
      waitForCameraAvailability inUseAt lastOpAt startTime maxWaitMs now
        = false) := by
  constructor
  · exact waitForCameraAvailability_true_implies inUseAt lastOpAt
      startTime maxWaitMs (startTime + maxWaitMs - now) now (le_refl _)
  · exact waitForCameraAvailability_timeout_false inUseAt lastOpAt
      startTime maxWaitMs now

/-- Claim C8 witness: with the camera free since time 0 and a poll
starting at t=5000 with an 8000 ms window, the acquisition succeeds
and the theorem yields the successful poll instant; the timeout part
is discharged at a poll starting past the window. -/
theorem c8_acquisition_requires_free_and_cooldown_witness :
    (∃ t, 5000 ≤ t ∧ t - 5000 < 8000 ∧ (fun _ => false) t = false ∧
      2000 ≤ t - ((fun _ => (none : Option Nat)) t).getD 0) ∧
    waitForCameraAvailability (fun _ => false) (fun _ => none) 5000 8000
      13000 = false := by
  constructor
  · exact (c8_acquisition_requires_free_and_cooldown (fun _ => false)
      (fun _ => none) 5000 8000 5000).1
      (by unfold waitForCameraAvailability; norm_num)
  · exact (c8_acquisition_requires_free_and_cooldown (fun _ => false)
      (fun _ => none) 5000 8000 13000).2 (by norm_num)

/-! ## Claim C9 -/

/-- Running a handler list ending in the clearInterval closure for a
timer leaves that timer out of the live interval set. -/
theorem notMem_activeIntervals_after_clear (st : AppState)
    (hs : List CleanupHandler) (id : Nat) :
    id ∉ ((hs ++ [CleanupHandler.clearInt id]).foldl runCleanupHandler
      st).activeIntervals := by
  rw [List.foldl_append]
  simp [runCleanupHandler]

/-- Claim C9: for a session whose polling timer was registered by
setupStreamingPhotoInterval, onStop leaves no entry for the user in
any of the eight per-user maps, and the polling interval is no longer
live (its clearInterval cleanup handler ran), so it never fires
again. -/
theorem c9_onstop_purges_user_state_and_timer
    (s : AppState) (sessionId userId : String) (intervalId : Nat) :
    mapGet (onStop sessionId userId (setupStreamingPhotoInterval
      sessionId intervalId s)).isStreamingPhotos userId = none ∧
    mapGet (onStop sessionId userId (setupStreamingPhotoInterval
      sessionId intervalId s)).nextPhotoTime userId = none ∧
    mapGet (onStop sessionId userId (setupStreamingPhotoInterval
      sessionId intervalId s)).cameraReady userId = none ∧
    mapGet (onStop sessionId userId (setupStreamingPhotoInterval
      sessionId intervalId s)).cameraInUse userId = none ∧
    mapGet (onStop sessionId userId (setupStreamingPhotoInterval
      sessionId intervalId s)).lastCameraOperation userId = none ∧
    mapGet (onStop sessionId userId (setupStreamingPhotoInterval
      sessionId intervalId s)).userSessions userId = none ∧
    mapGet (onStop sessionId userId (setupStreamingPhotoInterval
      sessionId intervalId s)).isCapturingQuestion userId = none ∧
    mapGet (onStop sessionId userId (setupStreamingPhotoInterval
      sessionId intervalId s)).capturedQuestions userId = none ∧
    intervalId ∉ (onStop sessionId userId (setupStreamingPhotoInterval
      sessionId intervalId s)).activeIntervals := by
  refine ⟨?_, ?_, ?_, ?_, ?_, ?_, ?_, ?_, ?_⟩
  · simp [onStop, mapGet_mapDelete_self]
  · simp [onStop, mapGet_mapDelete_self]
  · simp [onStop, mapGet_mapDelete_self]
  · simp [onStop, mapGet_mapDelete_self]
  · simp [onStop, mapGet_mapDelete_self]
  · simp [onStop, mapGet_mapDelete_self]
  · simp [onStop, mapGet_mapDelete_self]
  · simp [onStop, mapGet_mapDelete_self]
  · simp only [onStop, setupStreamingPhotoInterval,
      addSessionCleanupHandler, mapGet_mapSet_self, Option.getD_some]
    exact notMem_activeIntervals_after_clear _ _ intervalId

/-! ## Claim C10 -/

/-- Claim C10: the insertion row built by insertNutritionData maps
every falsy field to null: for each nutrient field, a value of
exactly 0 produces the same row as an absent (undefined) value — both
are persisted as null and are indistinguishable in the stored record
— and likewise an empty imgURL is persisted as null. -/
theorem c10_zero_persisted_as_null (d : NutritionAnalysis)
    (nowIso : String) :
    buildInsertRow { d with calories := .val 0 } nowIso =
      buildInsertRow { d with calories := .undef } nowIso ∧
    buildInsertRow { d with fats := .val 0 } nowIso =
      buildInsertRow { d with fats := .undef } nowIso ∧
    buildInsertRow { d with protein := .val 0 } nowIso =
      buildInsertRow { d with protein := .undef } nowIso ∧
    buildInsertRow { d with carbs := .val 0 } nowIso =
      buildInsertRow { d with carbs := .undef } nowIso ∧
    buildInsertRow { d with sugar := .val 0 } nowIso =
      buildInsertRow { d with sugar := .undef } nowIso ∧
    buildInsertRow { d with cholesterol := .val 0 } nowIso =
      buildInsertRow { d with cholesterol := .undef } nowIso ∧
    buildInsertRow { d with vitamin_a := .val 0 } nowIso =
      buildInsertRow { d with vitamin_a := .undef } nowIso ∧
    buildInsertRow { d with vitamin_c := .val 0 } nowIso =
      buildInsertRow { d with vitamin_c := .undef } nowIso ∧
    buildInsertRow { d with vitamin_d := .val 0 } nowIso =
      buildInsertRow { d with vitamin_d := .undef } nowIso ∧
    buildInsertRow { d with vitamin_e := .val 0 } nowIso =
      buildInsertRow { d with vitamin_e := .undef } nowIso ∧
    buildInsertRow { d with vitamin_k := .val 0 } nowIso =
      buildInsertRow { d with vitamin_k := .undef } nowIso ∧
    buildInsertRow { d with vitamin_b1 := .val 0 } nowIso =
      buildInsertRow { d with vitamin_b1 := .undef } nowIso ∧
    buildInsertRow { d with vitamin_b2 := .val 0 } nowIso =
      buildInsertRow { d with vitamin_b2 := .undef } nowIso ∧
    buildInsertRow { d with vitamin_b3 := .val 0 } nowIso =
      buildInsertRow { d with vitamin_b3 := .undef } nowIso ∧
    buildInsertRow { d with vitamin_b5 := .val 0 } nowIso =
      buildInsertRow { d with vitamin_b5 := .undef } nowIso ∧
    buildInsertRow { d with vitamin_b6 := .val 0 } nowIso =
      buildInsertRow { d with vitamin_b6 := .undef } nowIso ∧
    buildInsertRow { d with vitamin_b7 := .val 0 } nowIso =
      buildInsertRow { d with vitamin_b7 := .undef } nowIso ∧
    buildInsertRow { d with vitamin_b9 := .val 0 } nowIso =
      buildInsertRow { d with vitamin_b9 := .undef } nowIso ∧
    buildInsertRow { d with vitamin_b12 := .val 0 } nowIso =
      buildInsertRow { d with vitamin_b12 := .undef } nowIso ∧
    buildInsertRow { d with potassium := .val 0 } nowIso =
      buildInsertRow { d with potassium := .undef } nowIso ∧
    buildInsertRow { d with calcium := .val 0 } nowIso =
      buildInsertRow { d with calcium := .undef } nowIso ∧
    buildInsertRow { d with iron := .val 0 } nowIso =
      buildInsertRow { d with iron := .undef } nowIso ∧
    buildInsertRow { d with sodium := .val 0 } nowIso =
      buildInsertRow { d with sodium := .undef } nowIso ∧
    buildInsertRow { d with imgURL := .sval "" } nowIso =
      buildInsertRow { d with imgURL := .sundef } nowIso := by
  refine ⟨?_, ?_, ?_, ?_, ?_, ?_, ?_, ?_, ?_, ?_, ?_, ?_, ?_, ?_, ?_,
    ?_, ?_, ?_, ?_, ?_, ?_, ?_, ?_, ?_⟩ <;>
    simp [buildInsertRow, jsNumOrNull, jsStrOrNull]
